import Mathlib

/-!
Verification of the quiz/progress-tracking and answer-grading workflow of the
Notivora Flask backend.

The database state (tables `notes`, `flashcards`, `quizzes` from
`src/data/models/`) is embedded as lists of rows; each service method from
`src/app/services/` becomes a pure Lean function over that state.  The
external chat-completion capability is passed in as a function argument,
mirroring how the Python services receive `check_user_answer_with_llm` /
`generate_flashcards_from_summary` as callables.  Python floats are idealized
as exact rationals; `round(x, 2)` is modelled by round-half-to-even on `ℚ`.
-/

namespace Notivora

/-- Row of the `notes` table (src/data/models/notes.py).  `language` and
`ai_summary` are nullable columns, hence `Option`. -/
structure NoteRow where
  note_id : Nat
  title : Option String
  original : String
  ai_summary : Option String
  language : Option String
  user_id : Nat
deriving DecidableEq, Repr

/-- Row of the `flashcards` table (src/data/models/flashcards.py).  The
column `type` is called `ty` here because `type` is reserved in Lean.
`last_studied` timestamps are abstracted as `Option Nat`. -/
structure Flashcard where
  card_id : Nat
  question : String
  answer : String
  ty : Option String
  note_id : Option Nat
  learned : Bool
  last_studied : Option Nat
  times_reviewed : Nat
deriving DecidableEq, Repr

/-- Row of the `quizzes` table (src/data/models/quizzes.py): one quiz-attempt
record linking a user to a flashcard, with the submitted answer text, the
LLM feedback and the `answered` flag. -/
structure QuizRow where
  quiz_id : Nat
  answer : String
  ai_feedback : Option String
  answered : Bool
  card_id : Nat
  user_id : Nat
deriving DecidableEq, Repr

/-- The database state seen by the quiz workflow. -/
structure DB where
  notes : List NoteRow
  flashcards : List Flashcard
  quizzes : List QuizRow
deriving DecidableEq, Repr

/-- Primary-key well-formedness: `note_id`, `card_id` and `quiz_id` are
primary keys, so they are pairwise distinct in any database state. -/
def DB.WellFormed (db : DB) : Prop :=
  (db.notes.map (fun n => n.note_id)).Nodup ∧
  (db.flashcards.map (fun f => f.card_id)).Nodup ∧
  (db.quizzes.map (fun q => q.quiz_id)).Nodup

instance (db : DB) : Decidable db.WellFormed := by
  unfold DB.WellFormed; infer_instance

/-- Foreign-key integrity for `flashcards.note_id REFERENCES notes.note_id`:
every non-null `note_id` on a flashcard points at an existing note. -/
def ReferentialIntegrity (db : DB) : Prop :=
  ∀ f ∈ db.flashcards, f.note_id = none ∨ ∃ n ∈ db.notes, some n.note_id = f.note_id

instance (db : DB) : Decidable (ReferentialIntegrity db) := by
  unfold ReferentialIntegrity; infer_instance

/-- Result of the answer grader, Python dict `{"evaluation": ...}`. -/
structure Feedback where
  evaluation : String
deriving DecidableEq, Repr

/-- The external grading capability as the services see it: arguments are the
question, the stored correct answer, the user's answer, and the language
(`Option String` because `submit_answer` can pass Python `None` through). -/
abbrev Grader := String → String → String → Option String → Feedback

/-- Python truthiness of an optional string: `None` and `""` are falsy. -/
def truthy : Option String → Bool
  | none => false
  | some s => s != ""

/-- Python `str(x)` applied to an optional string (`None` prints as "None"),
used where an f-string interpolates a possibly-`None` value. -/
def pyStr : Option String → String
  | none => "None"
  | some s => s

/-- Round half to even (Python's `round` on ties), on exact rationals. -/
def rne (q : ℚ) : ℤ :=
  if q - ⌊q⌋ < 1/2 then ⌊q⌋
  else if 1/2 < q - ⌊q⌋ then ⌊q⌋ + 1
  else if ⌊q⌋ % 2 = 0 then ⌊q⌋ else ⌊q⌋ + 1

/-- Python `round(x, 2)`, idealizing floats as exact rationals. -/
def pyRound2 (q : ℚ) : ℚ := (rne (q * 100) : ℚ) / 100

/-! ## FlashcardService (src/app/services/flashcard_service.py) -/

/-- One element of `flashcards_data`: a dict with `question`, `answer` and an
optional `type` key (`card.get('type', '')`). -/
structure CardData where
  question : String
  answer : String
  ty : Option String
deriving DecidableEq, Repr

/-- Autoincrement primary-key assignment for newly inserted flashcards:
fresh ids start above every id present in the table. -/
def nextCardId (db : DB) : Nat :=
  (db.flashcards.map (fun f => f.card_id)).foldr max 0 + 1

/-- The rows inserted by `FlashcardService.save_flashcards`: each input card
becomes a new `Flashcard` with default state `learned=False`,
`last_studied=None`, `times_reviewed=0` and `type=card.get('type', '')`. -/
def newFlashcards (note_id start : Nat) (cards : List CardData) : List Flashcard :=
  cards.enum.map (fun p =>
    { card_id := start + p.1
      question := p.2.question
      answer := p.2.answer
      ty := some (p.2.ty.getD "")
      note_id := some note_id
      learned := false
      last_studied := none
      times_reviewed := 0 })

/-- `FlashcardService.save_flashcards`: deletes every existing flashcard row
for `note_id` (the ORM cascade `all, delete-orphan` on `Flashcard.quizzes`
also deletes quiz rows referencing a deleted card), then inserts the provided
cards as new rows, in one commit. -/
def save_flashcards (db : DB) (note_id : Nat) (cards : List CardData) : DB :=
  let deleted := db.flashcards.filter (fun f => f.note_id == some note_id)
  let kept := db.flashcards.filter (fun f => !(f.note_id == some note_id))
  { db with
      flashcards := kept ++ newFlashcards note_id (nextCardId db) cards
      quizzes := db.quizzes.filter (fun q => !(deleted.any (fun f => f.card_id == q.card_id))) }

/-! ## QuizService (src/app/services/quiz_service.py) -/

/-- Shape returned per card by `get_flashcards_for_quiz`:
`{"card_id": ..., "question": ..., "type": fc.type or "text"}`. -/
structure QuizCardView where
  card_id : Nat
  question : String
  ty : String
deriving DecidableEq, Repr

/-- Python `fc.type or "text"`: `None` and `""` fall back to "text". -/
def orText : Option String → String
  | none => "text"
  | some s => if s = "" then "text" else s

/-- `QuizService.get_flashcards_for_quiz`: inner join of `Flashcard` with its
owning `Note`, filtered on `Flashcard.note_id == note_id` and
`Note.user_id == user_id`; one output row per join pair. -/
def get_flashcards_for_quiz (db : DB) (user_id note_id : Nat) : List QuizCardView :=
  db.flashcards.flatMap (fun f =>
    (db.notes.filter (fun n =>
        some n.note_id == f.note_id && f.note_id == some note_id && n.user_id == user_id)).map
      (fun _ => ⟨f.card_id, f.question, orText f.ty⟩))

/-- The relationship `flashcard.note`: the note row referenced by the
flashcard's `note_id`, if any. -/
def flashcard_note (db : DB) (f : Flashcard) : Option NoteRow :=
  match f.note_id with
  | none => none
  | some nid => db.notes.find? (fun n => n.note_id == nid)

/-- The language computation on line 122 of quiz_service.py:
`flashcard.note.language if flashcard.note else "en"`.  Note that when the
owning note exists its `language` column is passed through verbatim, even
when it is `None`; the `"en"` default fires only when the flashcard has no
owning note at all. -/
def submit_language (db : DB) (f : Flashcard) : Option String :=
  match flashcard_note db f with
  | some n => n.language
  | none => some "en"

/-- `QuizService.submit_answer`: looks up the flashcard by `card_id`
(`ValueError "Flashcard not found"` if absent), invokes the grader, looks up
the quiz row by `quiz_id` (`ValueError "Quiz session not found"` if absent),
then updates that row in place with the answer, the feedback's `evaluation`
and `answered=True`.  Returns the possibly-updated state together with the
outcome. -/
def submit_answer (db : DB) (grader : Grader) (user_id quiz_id card_id : Nat)
    (user_answer : String) : DB × Except String Feedback :=
  match db.flashcards.find? (fun f => f.card_id == card_id) with
  | none => (db, .error "Flashcard not found")
  | some flashcard =>
    let language := submit_language db flashcard
    let feedback := grader flashcard.question flashcard.answer user_answer language
    match db.quizzes.find? (fun q => q.quiz_id == quiz_id) with
    | none => (db, .error "Quiz session not found")
    | some _ =>
      ({ db with
          quizzes := db.quizzes.map (fun q =>
            if q.quiz_id == quiz_id then
              { q with answer := user_answer
                       ai_feedback := some feedback.evaluation
                       answered := true }
            else q) },
       .ok feedback)

/-- Progress dict returned by `QuizService.get_progress`. -/
structure Progress where
  total_flashcards : Nat
  answered_flashcards : Nat
  progress_percent : ℚ
deriving DecidableEq, Repr

/-- `QuizService.get_progress`: `total` counts flashcards of the note;
`answered` counts rows of the join of `Quiz` with `Flashcard` filtered on
the user, the note and `Quiz.answered == True`; the percentage divides only
when `total` is truthy. -/
def get_progress (db : DB) (user_id note_id : Nat) : Progress :=
  let total := (db.flashcards.filter (fun f => f.note_id == some note_id)).length
  let answered :=
    ((db.quizzes.filter (fun q => q.user_id == user_id && q.answered)).map
      (fun q => (db.flashcards.filter (fun f =>
          f.card_id == q.card_id && f.note_id == some note_id)).length)).sum
  { total_flashcards := total
    answered_flashcards := answered
    progress_percent :=
      if total = 0 then 0 else pyRound2 ((answered : ℚ) / (total : ℚ) * 100) }

/-! ## LLMService (src/app/services/llm_service.py) -/

/-- `LLMService.check_answer`: raises `ValueError "Missing required fields"`
when `not all([question, correct_answer, user_answer, language])`, otherwise
delegates to the injected grading callable. -/
def check_answer (question correct_answer user_answer language : String)
    (checker : Grader) : Except String Feedback :=
  if question == "" || correct_answer == "" || user_answer == "" || language == "" then
    .error "Missing required fields"
  else
    .ok (checker question correct_answer user_answer (some language))

/-- `LLMService.generate_flashcards`: finds the note owned by the user
(`ValueError` if absent), requires a truthy `ai_summary`, asks the generator
for cards, and — when the generator returns a non-empty list — replaces the
note's flashcards via `FlashcardService.save_flashcards`.  An empty
generation returns early without touching the store. -/
def generate_flashcards (db : DB) (note_id user_id : Nat)
    (gen : String → Option String → List CardData) : Except String DB :=
  match db.notes.find? (fun n => n.note_id == note_id && n.user_id == user_id) with
  | none => .error "Note not found."
  | some note =>
    if !truthy note.ai_summary then .error "No summary available for this note."
    else
      let flashcards_data := gen (note.ai_summary.getD "") note.language
      if flashcards_data.isEmpty then .ok db
      else .ok (save_flashcards db note_id flashcards_data)

/-! ## llm_api (src/utils/llm_api.py) -/

/-- `get_openai_client`: raises `ValueError "OPENAI_API_KEY is not set"` when
the configured key is `None` or empty, else yields a client.  Crucially, in
`check_user_answer_with_llm` this call happens before the `try` block. -/
def get_openai_client (apiKey : Option String) : Except String Unit :=
  if !truthy apiKey then .error "OPENAI_API_KEY is not set" else .ok ()

/-- The user prompt assembled by `check_user_answer_with_llm`. -/
def checkPrompt (question correct_answer user_answer : String)
    (language : Option String) : String :=
  "Question: " ++ question ++ "\n" ++
  "Correct Answer: " ++ correct_answer ++ "\n" ++
  "User's Answer: " ++ user_answer ++ "\n\n" ++
  "Evaluate the user's answer. Clearly state whether it is correct, incorrect, or partially correct. " ++
  "If the user's answer is just a repetition of the question or only an abbreviation without explanation, " ++
  "consider it incorrect and explain why. " ++
  "Provide a short, helpful explanation. " ++
  "Your response must be written in " ++ pyStr language ++ "."

/-- `check_user_answer_with_llm`: acquires the client outside the `try`
block (so that failure propagates), then performs the chat-completion call;
any exception inside the `try` yields the degraded result
`{"evaluation": "Could not evaluate answer."}`; a successful call returns
the stripped completion text. -/
def check_user_answer_with_llm (apiKey : Option String)
    (llm : String → Except String String)
    (question correct_answer user_answer : String) (language : Option String) :
    Except String Feedback :=
  match get_openai_client apiKey with
  | .error e => .error e
  | .ok _ =>
    match llm (checkPrompt question correct_answer user_answer language) with
    | .ok content => .ok ⟨content.trim⟩
    | .error _ => .ok ⟨"Could not evaluate answer."⟩

/-! ## Routes (src/app/routes/quiz.py) -/

/-- Response of `POST /quiz/start/<note_id>`: 404 `"No flashcards found for
this note"` when the service returns an empty list, else 200 with the list. -/
inductive StartQuizResponse where
  | notFound
  | ok (cards : List QuizCardView)
deriving DecidableEq, Repr

/-- Route handler `start_quiz`. -/
def start_quiz (db : DB) (user_id note_id : Nat) : StartQuizResponse :=
  let flashcards := get_flashcards_for_quiz db user_id note_id
  if flashcards.isEmpty then .notFound else .ok flashcards

/-- Response of `GET /quiz/progress/<note_id>`. -/
inductive ProgressResponse where
  | notFound
  | ok (p : Progress)
deriving DecidableEq, Repr

/-- Route handler `get_progress` (quiz.py lines 57-61): wraps the service
result, with a 404 branch guarded by `progress is None`. -/
def get_progress_route (db : DB) (user_id note_id : Nat) : ProgressResponse :=
  let progress : Option Progress := some (get_progress db user_id note_id)
  match progress with
  | none => .notFound
  | some p => .ok p

instance {ε α : Type} [DecidableEq ε] [DecidableEq α] : DecidableEq (Except ε α) := fun a b =>
  match a, b with
  | .error x, .error y =>
    if h : x = y then isTrue (congrArg Except.error h)
    else isFalse (fun hh => h (Except.error.inj hh))
  | .ok x, .ok y =>
    if h : x = y then isTrue (congrArg Except.ok h)
    else isFalse (fun hh => h (Except.ok.inj hh))
  | .error _, .ok _ => isFalse (fun hh => Except.noConfusion hh)
  | .ok _, .error _ => isFalse (fun hh => Except.noConfusion hh)

/-! ## Spec-side definitions and the reachability system -/

/-- The number of DISTINCT flashcards of `note_id` that `user_id` has
answered: one per flashcard row of the note that carries at least one
answered quiz-attempt row of that user.  This formalizes the "exactly K
distinct flashcards answered" count used by the specification. -/
def answeredDistinct (db : DB) (user_id note_id : Nat) : Nat :=
  (db.flashcards.filter (fun f =>
      f.note_id == some note_id &&
      db.quizzes.any (fun q =>
        (q.user_id == user_id && q.answered) && q.card_id == f.card_id))).length

/-- Modelled from the spec: creation of a Quiz Attempt row for a user and a
flashcard.  The source's `QuizService.start_or_get_active_quiz` constructs
`Quiz(user_id=…, note_id=…, completed=…, created_at=…)`, but the `Quiz`
model in src/data/models/quizzes.py has none of the columns `note_id`,
`completed`, `created_at` (and leaves the non-nullable `answer` and
`card_id` unset), so attempt-row creation cannot execute against that model.
The spec (§3) describes the Quiz Attempt store as an append-only log of
rows, each referencing one user and one flashcard; this operation appends
such a row, initially unanswered, with a fresh `quiz_id`. -/
def start_quiz_attempt (db : DB) (user_id card_id : Nat) : DB :=
  let qid := (db.quizzes.map (fun q => q.quiz_id)).foldr max 0 + 1
  { db with quizzes := db.quizzes ++ [⟨qid, "", none, false, card_id, user_id⟩] }

/-- One database transition: a flashcard replacement
(`FlashcardService.save_flashcards`), a quiz-attempt creation (spec-modelled,
see `start_quiz_attempt`), or an answer submission
(`QuizService.submit_answer`). -/
inductive Step : DB → DB → Prop where
  | save : ∀ (db : DB) (note_id : Nat) (cards : List CardData),
      Step db (save_flashcards db note_id cards)
  | start : ∀ (db : DB) (user_id card_id : Nat),
      Step db (start_quiz_attempt db user_id card_id)
  | submit : ∀ (db : DB) (g : Grader) (user_id quiz_id card_id : Nat) (ans : String),
      Step db (submit_answer db g user_id quiz_id card_id ans).1

/-- Reachability of one database state from another through the quiz
workflow's operations. -/
def Reachable : DB → DB → Prop := Relation.ReflTransGen Step

/-- Projection of a flashcard row to everything except its surrogate id:
the content that `replaceFlashcards` preserves "in effect". -/
def cardContent (f : Flashcard) : String × String × Option String × Bool × Option Nat × Nat :=
  (f.question, f.answer, f.ty, f.learned, f.last_studied, f.times_reviewed)

/-- The content a freshly inserted flashcard row carries for a given input
card: the card's fields plus the default state. -/
def defaultContent (c : CardData) : String × String × Option String × Bool × Option Nat × Nat :=
  (c.question, c.answer, some (c.ty.getD ""), false, none, 0)

/-! ## Concrete states and capabilities used by counterexamples/witnesses -/

/-- A grader that always returns the same feedback. -/
def gConst : Grader := fun _ _ _ _ => ⟨"ok"⟩

/-- A constant grader distinguishable from `gB`. -/
def gA : Grader := fun _ _ _ _ => ⟨"A"⟩

/-- A constant grader distinguishable from `gA`. -/
def gB : Grader := fun _ _ _ _ => ⟨"B"⟩

/-- A grader that reports which language argument it received. -/
def gProbe : Grader := fun _ _ _ l =>
  ⟨match l with
   | none => "None"
   | some s => "some " ++ s⟩

/-- An external completion call that always fails. -/
def llmDown : String → Except String String := fun _ => .error "network down"

/-- An external completion call that always succeeds. -/
def llmUp : String → Except String String := fun _ => .ok "Correct."

/-- One note, one flashcard, and two answered attempt rows of the same user
for that single flashcard. -/
def c1db : DB :=
  { notes := [⟨1, none, "text", none, some "en", 1⟩]
    flashcards := [⟨1, "q1", "a1", some "", some 1, false, none, 0⟩]
    quizzes := [⟨1, "x", some "fb", true, 1, 1⟩, ⟨2, "y", some "fb", true, 1, 1⟩] }

/-- One note with three flashcards, one of them answered once. -/
def c1wdb : DB :=
  { notes := [⟨1, none, "text", none, some "en", 1⟩]
    flashcards := [⟨1, "q1", "a1", some "", some 1, false, none, 0⟩,
                   ⟨2, "q2", "a2", some "", some 1, false, none, 0⟩,
                   ⟨3, "q3", "a3", some "", some 1, false, none, 0⟩]
    quizzes := [⟨1, "x", some "fb", true, 1, 1⟩] }

/-- Initial state for the C2 run: a single note, no flashcards, no attempts. -/
def c2db0 : DB := { notes := [⟨1, none, "text", none, some "en", 1⟩], flashcards := [], quizzes := [] }

/-- After replacing note 1's flashcards with one card. -/
def c2db1 : DB := save_flashcards c2db0 1 [⟨"q1", "a1", none⟩]

/-- After creating a first attempt row for user 1 on card 1. -/
def c2db2 : DB := start_quiz_attempt c2db1 1 1

/-- After creating a second attempt row for user 1 on card 1. -/
def c2db3 : DB := start_quiz_attempt c2db2 1 1

/-- After submitting an answer on the first attempt row. -/
def c2db4 : DB := (submit_answer c2db3 gConst 1 1 1 "x").1

/-- After submitting an answer on the second attempt row: both answered
rows now reference the note's single flashcard. -/
def c2db5 : DB := (submit_answer c2db4 gConst 1 2 1 "y").1

/-- One note, one flashcard, one answered attempt. -/
def c2wdb : DB :=
  { notes := [⟨1, none, "text", none, some "en", 1⟩]
    flashcards := [⟨1, "q1", "a1", some "", some 1, false, none, 0⟩]
    quizzes := [⟨1, "x", none, true, 1, 1⟩] }

/-- A store whose only flashcard has id 1 (so id 2 matches nothing). -/
def c3db : DB :=
  { notes := [], flashcards := [⟨1, "q", "a", none, some 1, false, none, 0⟩], quizzes := [] }

/-- A note, its flashcard and an open attempt row, used to drive
`submit_answer` with an empty user answer. -/
def c5db : DB :=
  { notes := [⟨1, none, "text", none, some "en", 1⟩]
    flashcards := [⟨1, "q", "a", some "", some 1, false, none, 0⟩]
    quizzes := [⟨1, "", none, false, 1, 1⟩] }

/-- A note whose `language` column is NULL, its flashcard and an open
attempt row. -/
def c7db : DB :=
  { notes := [⟨1, none, "text", none, none, 1⟩]
    flashcards := [⟨1, "q", "a", none, some 1, false, none, 0⟩]
    quizzes := [⟨1, "", none, false, 1, 1⟩] }

/-- The flashcard row stored in `c7db`. -/
def c7fc : Flashcard := ⟨1, "q", "a", none, some 1, false, none, 0⟩

/-- The note row stored in `c7db`: it exists but has no language. -/
def c7note : NoteRow := ⟨1, none, "text", none, none, 1⟩

/-- A note owned by user 2 with one flashcard; user 1 will request it. -/
def c8db : DB :=
  { notes := [⟨1, none, "text", none, some "en", 2⟩]
    flashcards := [⟨1, "q", "a", none, some 1, false, none, 0⟩]
    quizzes := [] }

/-- The note row stored in `c8db`. -/
def c8note : NoteRow := ⟨1, none, "text", none, some "en", 2⟩

/-- A state with one note (id 1) and one flashcard, used to query an
unknown note id. -/
def c9db : DB :=
  { notes := [⟨1, none, "text", none, some "en", 1⟩]
    flashcards := [⟨1, "q", "a", none, some 1, false, none, 0⟩]
    quizzes := [⟨1, "x", none, true, 1, 1⟩] }

/-- A note with an AI summary and one existing flashcard. -/
def c10db : DB :=
  { notes := [⟨1, none, "orig", some "sum", some "en", 1⟩]
    flashcards := [⟨1, "q", "a", none, some 1, false, none, 0⟩]
    quizzes := [] }

/-- The note row stored in `c10db`. -/
def c10note : NoteRow := ⟨1, none, "orig", some "sum", some "en", 1⟩

/-- A flashcard generator that produces nothing. -/
def genNil : String → Option String → List CardData := fun _ _ => []

/-! ## Helper lemmas -/

lemma sum_map_zero {α : Type} (l : List α) : (l.map (fun _ => (0 : Nat))).sum = 0 := by
  induction l with
  | nil => rfl
  | cons a t ih => simp [ih]

lemma sum_map_add_split {α : Type} (l : List α) (g h : α → Nat) :
    (l.map (fun x => g x + h x)).sum = (l.map g).sum + (l.map h).sum := by
  induction l with
  | nil => rfl
  | cons a t ih => simp only [List.map_cons, List.sum_cons, ih]; omega

lemma sum_map_ite_eq_countP {α : Type} (l : List α) (p : α → Bool) :
    (l.map (fun x => if p x then 1 else 0)).sum = l.countP p := by
  induction l with
  | nil => rfl
  | cons a t ih => simp only [List.map_cons, List.sum_cons, ih, List.countP_cons]; omega

lemma countP_beq_le_one {α β : Type} [DecidableEq β] (l : List α) (g : α → β)
    (hl : (l.map g).Nodup) (c : β) : l.countP (fun x => g x == c) ≤ 1 := by
  induction l with
  | nil => simp
  | cons a t ih =>
    rw [List.map_cons, List.nodup_cons] at hl
    rw [List.countP_cons]
    by_cases h : g a = c
    · have h0 : t.countP (fun x => g x == c) = 0 := by
        rw [List.countP_eq_zero]
        intro x hx hbx
        have hxa : g x = g a := (beq_iff_eq.mp hbx).trans h.symm
        exact hl.1 (List.mem_map.mpr ⟨x, hx, hxa⟩)
      simp [h0, h]
    · have hb : (g a == c) = false := by simp [h]
      rw [hb]
      simpa using ih hl.2

lemma beq_comm_nat (a b : Nat) : (a == b) = (b == a) := by
  by_cases h : a = b
  · rw [h]
  · have hba : ¬b = a := fun e => h e.symm
    have h1 : (a == b) = false := by simp [h]
    have h2 : (b == a) = false := by simp [hba]
    rw [h1, h2]

/-- Counting the rows of the `Quiz ⋈ Flashcard` join (one summand per quiz
row) equals counting the distinct flashcards of the note that carry at least
one matching quiz row, provided the quiz rows reference pairwise-distinct
flashcards. -/
lemma join_sum_eq_distinct (F : List Flashcard) (Q : List QuizRow) (nid : Nat)
    (hQ : (Q.map (fun q => q.card_id)).Nodup) :
    (Q.map (fun q =>
        (F.filter (fun f => f.card_id == q.card_id && f.note_id == some nid)).length)).sum
      = (F.filter (fun f =>
          f.note_id == some nid && Q.any (fun q => q.card_id == f.card_id))).length := by
  simp only [← List.countP_eq_length_filter]
  have key : ∀ f : Flashcard,
      Q.countP (fun q => f.card_id == q.card_id && f.note_id == some nid)
        = if (f.note_id == some nid && Q.any (fun q => q.card_id == f.card_id)) then 1 else 0 := by
    intro f
    by_cases hn : f.note_id = some nid
    · have h1 : Q.countP (fun q => f.card_id == q.card_id && f.note_id == some nid)
          = Q.countP (fun q => q.card_id == f.card_id) :=
        List.countP_congr (fun q _ => by rw [hn, beq_comm_nat]; simp)
      rw [h1]
      have hle := countP_beq_le_one Q (fun q => q.card_id) hQ f.card_id
      by_cases hany : Q.any (fun q => q.card_id == f.card_id) = true
      · have hpos : 0 < Q.countP (fun q => q.card_id == f.card_id) := by
          rw [List.countP_pos_iff]
          rcases List.any_eq_true.mp hany with ⟨q, hq, hq2⟩
          exact ⟨q, hq, hq2⟩
        have hone : Q.countP (fun q => q.card_id == f.card_id) = 1 :=
          Nat.le_antisymm hle hpos
        rw [hone, if_pos (by simp [hn, hany])]
      · have h0 : Q.countP (fun q => q.card_id == f.card_id) = 0 := by
          rw [List.countP_eq_zero]
          intro q hq hq2
          exact hany (List.any_eq_true.mpr ⟨q, hq, hq2⟩)
        rw [h0, if_neg (by simp [hany])]
    · have h0 : Q.countP (fun q => f.card_id == q.card_id && f.note_id == some nid) = 0 := by
        rw [List.countP_eq_zero]
        intro q _ hq2
        simp only [Bool.and_eq_true, beq_iff_eq] at hq2
        exact hn hq2.2
      rw [h0, if_neg (by simp [hn])]
  induction F with
  | nil => simp [sum_map_zero]
  | cons f F ih =>
    simp only [List.countP_cons]
    rw [sum_map_add_split, ih, sum_map_ite_eq_countP, key f]

lemma rne_nonneg (q : ℚ) (h : 0 ≤ q) : 0 ≤ rne q := by
  have h0 : (0 : ℤ) ≤ ⌊q⌋ := Int.floor_nonneg.mpr h
  unfold rne
  split_ifs <;> omega

lemma rne_le (q : ℚ) (B : ℤ) (h : q ≤ B) : rne q ≤ B := by
  have hfB : ⌊q⌋ ≤ B := (Int.floor_le_floor h).trans_eq (Int.floor_intCast B)
  unfold rne
  split_ifs with h1 h2 h3
  · exact hfB
  · rcases eq_or_lt_of_le hfB with heq | hlt
    · exfalso
      have hBq : ((⌊q⌋ : ℤ) : ℚ) = (B : ℚ) := by exact_mod_cast heq
      have hfl : (⌊q⌋ : ℚ) ≤ q := Int.floor_le q
      linarith
    · omega
  · exact hfB
  · have hfr : q - ⌊q⌋ = 1/2 := le_antisymm (not_lt.mp h2) (not_lt.mp h1)
    rcases eq_or_lt_of_le hfB with heq | hlt
    · exfalso
      have hBq : ((⌊q⌋ : ℤ) : ℚ) = (B : ℚ) := by exact_mod_cast heq
      linarith
    · omega

lemma rne_intCast (n : ℤ) : rne ((n : ℚ)) = n := by
  unfold rne
  rw [Int.floor_intCast]
  norm_num

lemma pyRound2_intCast (n : ℤ) : pyRound2 ((n : ℚ)) = n := by
  unfold pyRound2
  have h : ((n : ℚ) * 100) = (((n * 100 : ℤ) : ℚ)) := by push_cast; ring
  rw [h, rne_intCast]
  push_cast
  field_simp

/-- The percentage field of `get_progress` restated through the other two
fields (definitional). -/
lemma progress_percent_formula (db : DB) (user_id note_id : Nat) :
    (get_progress db user_id note_id).progress_percent =
      (if (get_progress db user_id note_id).total_flashcards = 0 then 0
       else pyRound2 (((get_progress db user_id note_id).answered_flashcards : ℚ)
          / ((get_progress db user_id note_id).total_flashcards : ℚ) * 100)) := rfl

lemma pyRound2_nonneg (q : ℚ) (h : 0 ≤ q) : 0 ≤ pyRound2 q := by
  have h1 : (0 : ℤ) ≤ rne (q * 100) := rne_nonneg _ (by positivity)
  unfold pyRound2
  have h2 : (0 : ℚ) ≤ (rne (q * 100) : ℚ) := by exact_mod_cast h1
  positivity

/-- The `answered` sum computed by `get_progress` equals the number of
distinct answered flashcards of the note, whenever the user's answered
attempt rows reference pairwise-distinct flashcards. -/
lemma get_progress_answered_eq (db : DB) (user_id note_id : Nat)
    (hq : ((db.quizzes.filter (fun q => q.user_id == user_id && q.answered)).map
        (fun q => q.card_id)).Nodup) :
    ((db.quizzes.filter (fun q => q.user_id == user_id && q.answered)).map
        (fun q => (db.flashcards.filter (fun f =>
            f.card_id == q.card_id && f.note_id == some note_id)).length)).sum
      = answeredDistinct db user_id note_id := by
  rw [join_sum_eq_distinct db.flashcards _ note_id hq]
  unfold answeredDistinct
  simp only [List.any_filter]

/-- The distinct-answered count never exceeds the note's flashcard count. -/
lemma answeredDistinct_le_total (db : DB) (user_id note_id : Nat) :
    answeredDistinct db user_id note_id
      ≤ (db.flashcards.filter (fun f => f.note_id == some note_id)).length := by
  unfold answeredDistinct
  simp only [← List.countP_eq_length_filter]
  refine List.countP_mono_left (fun f _ h => ?_)
  exact (Bool.and_eq_true _ _ ▸ h).1

lemma pyRound2_le_100 (q : ℚ) (h : q ≤ 100) : pyRound2 q ≤ 100 := by
  have h1 : q * 100 ≤ ((10000 : ℤ) : ℚ) := by push_cast; linarith
  have h2 : rne (q * 100) ≤ 10000 := rne_le _ _ h1
  unfold pyRound2
  rw [div_le_iff₀ (by norm_num : (0 : ℚ) < 100)]
  have : (rne (q * 100) : ℚ) ≤ 10000 := by exact_mod_cast h2
  linarith

/-! ## Claim C1 -/

/-- Claim C1, counterexample.  The claim states that whenever exactly K
distinct flashcards of the note are answered by the user (K ≤ N),
`get_progress` reports `answeredFlashcards == K`.  In `c1db` the user has
two answered attempt rows for the note's single flashcard, so K = 1 and
N = 1, yet `get_progress` counts attempt rows and reports 2. -/
theorem c1_counterexample :
    c1db.WellFormed ∧
    answeredDistinct c1db 1 1 = 1 ∧
    (get_progress c1db 1 1).total_flashcards = 1 ∧
    (get_progress c1db 1 1).answered_flashcards = 2 ∧
    (get_progress c1db 1 1).answered_flashcards ≠ answeredDistinct c1db 1 1 := by
  decide

/-- Claim C1, amended: if additionally the user's answered attempt rows
reference pairwise-distinct flashcards, then `get_progress` reports
`totalFlashcards = N`, `answeredFlashcards = K` (the distinct answered
count) and `progressPercent = round(K/N*100, 2)` for `N > 0`, and `0` for
`N = 0`. -/
theorem c1_progress_distinct (db : DB) (user_id note_id : Nat)
    (hq : ((db.quizzes.filter (fun q => q.user_id == user_id && q.answered)).map
        (fun q => q.card_id)).Nodup) :
    (get_progress db user_id note_id).total_flashcards
      = (db.flashcards.filter (fun f => f.note_id == some note_id)).length ∧
    (get_progress db user_id note_id).answered_flashcards
      = answeredDistinct db user_id note_id ∧
    (get_progress db user_id note_id).progress_percent
      = (if (db.flashcards.filter (fun f => f.note_id == some note_id)).length = 0 then 0
         else pyRound2 ((answeredDistinct db user_id note_id : ℚ)
            / ((db.flashcards.filter (fun f => f.note_id == some note_id)).length : ℚ) * 100)) := by
  have hans := get_progress_answered_eq db user_id note_id hq
  refine ⟨rfl, hans, ?_⟩
  show (if (db.flashcards.filter (fun f => f.note_id == some note_id)).length = 0 then (0 : ℚ)
        else pyRound2
          ((((db.quizzes.filter (fun q => q.user_id == user_id && q.answered)).map
              (fun q => (db.flashcards.filter (fun f =>
                  f.card_id == q.card_id && f.note_id == some note_id)).length)).sum : ℚ)
            / ((db.flashcards.filter (fun f => f.note_id == some note_id)).length : ℚ) * 100)) = _
  rw [hans]

/-- Claim C1, witness for the amended theorem: three flashcards, one
answered once. -/
theorem c1_witness :
    (get_progress c1wdb 1 1).answered_flashcards = answeredDistinct c1wdb 1 1 :=
  (c1_progress_distinct c1wdb 1 1 (by decide)).2.1

/-! ## Claim C2 -/

/-- Claim C2, counterexample.  From a state with one note and no flashcards,
a flashcard replacement, two (spec-modelled) attempt creations and two
answer submissions through `submit_answer` reach a state whose progress
percentage is 200, outside `[0, 100]`. -/
theorem c2_counterexample :
    Reachable c2db0 c2db5 ∧
    (get_progress c2db5 1 1).progress_percent = 200 ∧
    ¬((get_progress c2db5 1 1).progress_percent ≤ 100) := by
  have htot : (get_progress c2db5 1 1).total_flashcards = 1 := by decide
  have hans : (get_progress c2db5 1 1).answered_flashcards = 2 := by decide
  have hpct : (get_progress c2db5 1 1).progress_percent = 200 := by
    rw [progress_percent_formula, htot, hans]
    norm_num
    calc pyRound2 200 = pyRound2 (((200 : ℤ) : ℚ)) := by norm_num
      _ = ((200 : ℤ) : ℚ) := pyRound2_intCast 200
      _ = 200 := by norm_num
  refine ⟨?_, hpct, by rw [hpct]; norm_num⟩
  have s1 : Step c2db0 c2db1 := Step.save c2db0 1 [⟨"q1", "a1", none⟩]
  have s2 : Step c2db1 c2db2 := Step.start c2db1 1 1
  have s3 : Step c2db2 c2db3 := Step.start c2db2 1 1
  have s4 : Step c2db3 c2db4 := Step.submit c2db3 gConst 1 1 1 "x"
  have s5 : Step c2db4 c2db5 := Step.submit c2db4 gConst 1 2 1 "y"
  exact Relation.ReflTransGen.head s1 (Relation.ReflTransGen.head s2
    (Relation.ReflTransGen.head s3 (Relation.ReflTransGen.head s4
      (Relation.ReflTransGen.single s5))))

/-- Claim C2, amended: the progress percentage is always ≥ 0, and it lies in
`[0, 100]` whenever the user's answered attempt rows reference
pairwise-distinct flashcards (duplicate attempts for one flashcard can push
it above 100). -/
theorem c2_progress_bounds (db : DB) (user_id note_id : Nat)
    (hq : ((db.quizzes.filter (fun q => q.user_id == user_id && q.answered)).map
        (fun q => q.card_id)).Nodup) :
    0 ≤ (get_progress db user_id note_id).progress_percent ∧
    (get_progress db user_id note_id).progress_percent ≤ 100 := by
  have hans := get_progress_answered_eq db user_id note_id hq
  have hKN := answeredDistinct_le_total db user_id note_id
  have hat : ((db.quizzes.filter (fun q => q.user_id == user_id && q.answered)).map
      (fun q => (db.flashcards.filter (fun f =>
          f.card_id == q.card_id && f.note_id == some note_id)).length)).sum
        ≤ (db.flashcards.filter (fun f => f.note_id == some note_id)).length :=
    le_of_eq_of_le hans hKN
  have hat2 : (get_progress db user_id note_id).answered_flashcards
      ≤ (get_progress db user_id note_id).total_flashcards := hat
  rw [progress_percent_formula]
  by_cases h0 : (get_progress db user_id note_id).total_flashcards = 0
  · rw [if_pos h0]
    exact ⟨le_refl 0, by norm_num⟩
  · rw [if_neg h0]
    have htpos : (0 : ℚ) < ((get_progress db user_id note_id).total_flashcards : ℚ) := by
      exact_mod_cast Nat.pos_of_ne_zero h0
    have hq0 : (0 : ℚ) ≤ ((get_progress db user_id note_id).answered_flashcards : ℚ)
        / ((get_progress db user_id note_id).total_flashcards : ℚ) * 100 := by positivity
    have hq100 : ((get_progress db user_id note_id).answered_flashcards : ℚ)
        / ((get_progress db user_id note_id).total_flashcards : ℚ) * 100 ≤ 100 := by
      have hdiv : ((get_progress db user_id note_id).answered_flashcards : ℚ)
          / ((get_progress db user_id note_id).total_flashcards : ℚ) ≤ 1 :=
        (div_le_one htpos).mpr (by exact_mod_cast hat2)
      nlinarith
    exact ⟨pyRound2_nonneg _ hq0, pyRound2_le_100 _ hq100⟩

/-- Claim C2, witness for the amended theorem. -/
theorem c2_witness :
    0 ≤ (get_progress c2wdb 1 1).progress_percent ∧
    (get_progress c2wdb 1 1).progress_percent ≤ 100 :=
  c2_progress_bounds c2wdb 1 1 (by decide)

/-! ## Claim C3 -/

/-- Claim C3: submitting an answer for a `card_id` matching no flashcard
fails with the not-found error and leaves the whole database state — in
particular the quiz-attempt store — unchanged. -/
theorem c3_submit_missing_card (db : DB) (g : Grader) (user_id quiz_id card_id : Nat)
    (ans : String) (h : ∀ f ∈ db.flashcards, f.card_id ≠ card_id) :
    submit_answer db g user_id quiz_id card_id ans = (db, .error "Flashcard not found") := by
  have hf : db.flashcards.find? (fun f => f.card_id == card_id) = none :=
    List.find?_eq_none.mpr (fun f hfm => by simpa using h f hfm)
  unfold submit_answer
  rw [hf]

/-- Claim C3, witness: the store holds only card 1, card 2 is requested. -/
theorem c3_witness :
    submit_answer c3db gConst 1 1 2 "x" = (c3db, .error "Flashcard not found") :=
  c3_submit_missing_card c3db gConst 1 1 2 "x" (by decide)

/-! ## Claim C4 -/

lemma enum_map_comp {α β : Type} (l : List α) (g : Nat × α → β) (k : α → β)
    (h : ∀ p : Nat × α, g p = k p.2) : l.enum.map g = l.map k := by
  have h1 : g = k ∘ Prod.snd := funext h
  rw [h1, ← List.map_map, List.enum_map_snd]

lemma newFlashcards_map_content (note_id start : Nat) (cards : List CardData) :
    (newFlashcards note_id start cards).map cardContent = cards.map defaultContent := by
  unfold newFlashcards
  rw [List.map_map]
  exact enum_map_comp cards _ _ (fun p => rfl)

lemma newFlashcards_length (note_id start : Nat) (cards : List CardData) :
    (newFlashcards note_id start cards).length = cards.length := by
  unfold newFlashcards
  rw [List.length_map, List.enum_length]

lemma newFlashcards_note_id (note_id start : Nat) (cards : List CardData) :
    ∀ f ∈ newFlashcards note_id start cards, f.note_id = some note_id := by
  intro f hf
  unfold newFlashcards at hf
  rcases List.mem_map.mp hf with ⟨p, _, rfl⟩
  rfl

/-- After `save_flashcards`, the flashcards of the note are exactly the
freshly inserted rows. -/
lemma save_filter_note (db : DB) (note_id : Nat) (cards : List CardData) :
    ((save_flashcards db note_id cards).flashcards.filter
        (fun f => f.note_id == some note_id)) = newFlashcards note_id (nextCardId db) cards := by
  show ((db.flashcards.filter (fun f => !(f.note_id == some note_id))
      ++ newFlashcards note_id (nextCardId db) cards).filter
        (fun f => f.note_id == some note_id)) = _
  rw [List.filter_append]
  have h1 : (db.flashcards.filter (fun f => !(f.note_id == some note_id))).filter
      (fun f => f.note_id == some note_id) = [] := by
    rw [List.filter_eq_nil_iff]
    intro f hf hp
    have hneg := (List.mem_filter.mp hf).2
    rw [hp] at hneg
    exact Bool.noConfusion hneg
  have h2 : (newFlashcards note_id (nextCardId db) cards).filter
      (fun f => f.note_id == some note_id) = newFlashcards note_id (nextCardId db) cards := by
    rw [List.filter_eq_self]
    intro f hf
    rw [newFlashcards_note_id note_id (nextCardId db) cards f hf]
    simp
  rw [h1, h2, List.nil_append]

/-- Claim C4: `save_flashcards` is idempotent in effect.  Calling it twice
with the same input leaves, for the note, exactly the rows obtained from the
input cards (same id-less content after one and after two calls, `N` rows in
total), each inserted with `learned=false`, `times_reviewed=0`,
`last_studied=null` — this is what `defaultContent` records. -/
theorem c4_replace_idempotent (db : DB) (note_id : Nat) (cards : List CardData) :
    (((save_flashcards (save_flashcards db note_id cards) note_id cards).flashcards.filter
        (fun f => f.note_id == some note_id)).map cardContent
      = ((save_flashcards db note_id cards).flashcards.filter
        (fun f => f.note_id == some note_id)).map cardContent) ∧
    (((save_flashcards db note_id cards).flashcards.filter
        (fun f => f.note_id == some note_id)).map cardContent = cards.map defaultContent) ∧
    ((save_flashcards (save_flashcards db note_id cards) note_id cards).flashcards.filter
        (fun f => f.note_id == some note_id)).length = cards.length := by
  have e1 := save_filter_note db note_id cards
  have e2 := save_filter_note (save_flashcards db note_id cards) note_id cards
  refine ⟨?_, ?_, ?_⟩
  · rw [e1, e2, newFlashcards_map_content, newFlashcards_map_content]
  · rw [e1, newFlashcards_map_content]
  · rw [e2, newFlashcards_length]

/-! ## Claim C5 -/

/-- Claim C5, counterexample.  A grading request reaching the external
capability through `QuizService.submit_answer` with an EMPTY `user_answer`
is not rejected: no `ValidationError` is raised and the external grader is
invoked (the submission outcome depends on which grader is plugged in). -/
theorem c5_counterexample :
    (submit_answer c5db gA 1 1 1 "").2 = .ok ⟨"A"⟩ ∧
    (submit_answer c5db gB 1 1 1 "").2 = .ok ⟨"B"⟩ ∧
    (submit_answer c5db gA 1 1 1 "").2 ≠ (submit_answer c5db gB 1 1 1 "").2 := by
  refine ⟨rfl, rfl, by decide⟩

/-- Claim C5, amended: grading through the Answer Grader entry point
(`LLMService.check_answer`) with any of the four inputs empty fails with
`ValidationError` and makes no external call — the outcome is independent of
the plugged-in capability. -/
theorem c5_check_answer_validates (q c u l : String) (g₁ g₂ : Grader)
    (h : q = "" ∨ c = "" ∨ u = "" ∨ l = "") :
    check_answer q c u l g₁ = .error "Missing required fields" ∧
    check_answer q c u l g₁ = check_answer q c u l g₂ := by
  have hb : (q == "" || c == "" || u == "" || l == "") = true := by
    rcases h with h | h | h | h <;> simp [h]
  constructor <;> simp [check_answer, hb]

/-- Claim C5, witness for the amended theorem. -/
theorem c5_witness :
    check_answer "" "a" "u" "en" gA = .error "Missing required fields" ∧
    check_answer "" "a" "u" "en" gA = check_answer "" "a" "u" "en" gB :=
  c5_check_answer_validates "" "a" "u" "en" gA gB (Or.inl rfl)

/-! ## Claim C6 -/

/-- Claim C6, counterexample.  `check_user_answer_with_llm` acquires the
client before its `try` block: with no API key configured, the grading call
propagates `ValueError "OPENAI_API_KEY is not set"` instead of returning the
degraded well-formed result. -/
theorem c6_counterexample :
    check_user_answer_with_llm none llmUp "q" "a" "u" (some "en")
      = .error "OPENAI_API_KEY is not set" ∧
    check_user_answer_with_llm none llmUp "q" "a" "u" (some "en")
      ≠ .ok ⟨"Could not evaluate answer."⟩ := by
  refine ⟨rfl, by decide⟩

/-- Claim C6, amended: once the client is acquired (API key present and
non-empty), any failure of the external completion call yields the degraded
result `{"evaluation": "Could not evaluate answer."}` instead of
propagating. -/
theorem c6_degraded_on_llm_failure (apiKey : Option String)
    (llm : String → Except String String) (q a u : String) (l : Option String) (e : String)
    (hk : truthy apiKey = true)
    (hf : llm (checkPrompt q a u l) = .error e) :
    check_user_answer_with_llm apiKey llm q a u l = .ok ⟨"Could not evaluate answer."⟩ := by
  simp [check_user_answer_with_llm, get_openai_client, hk, hf]

/-- Claim C6, witness for the amended theorem. -/
theorem c6_witness :
    check_user_answer_with_llm (some "key") llmDown "q" "a" "u" (some "en")
      = .ok ⟨"Could not evaluate answer."⟩ :=
  c6_degraded_on_llm_failure (some "key") llmDown "q" "a" "u" (some "en") "network down"
    (by decide) rfl

/-! ## Claim C7 -/

/-- Claim C7, counterexample.  In `c7db` the answered flashcard's owning
note EXISTS but has `language = NULL`.  The claim says the grader is then
invoked with the default `"en"`; the probe grader shows it actually receives
the bare `None` (it would report "some en" under the claim). -/
theorem c7_counterexample :
    c7db.flashcards.find? (fun x => x.card_id == 1) = some c7fc ∧
    flashcard_note c7db c7fc = some c7note ∧
    c7note.language = none ∧
    (submit_answer c7db gProbe 1 1 1 "x").2 = .ok ⟨"None"⟩ ∧
    gProbe "q" "a" "x" (some "en") = ⟨"some en"⟩ ∧
    (⟨"None"⟩ : Feedback) ≠ (⟨"some en"⟩ : Feedback) := by
  refine ⟨rfl, rfl, rfl, rfl, rfl, by decide⟩

/-- Claim C7, amended: for an existing flashcard (and quiz row), the grader
receives exactly `submit_language`: the owning note's recorded language
passed through verbatim (even when NULL), with the `"en"` default applied
only when the flashcard has no owning note. -/
theorem c7_language_from_note (db : DB) (g : Grader) (user_id quiz_id card_id : Nat)
    (ans : String) (f : Flashcard) (qz : QuizRow)
    (hf : db.flashcards.find? (fun x => x.card_id == card_id) = some f)
    (hqz : db.quizzes.find? (fun x => x.quiz_id == quiz_id) = some qz) :
    (submit_answer db g user_id quiz_id card_id ans).2
      = .ok (g f.question f.answer ans (submit_language db f)) ∧
    (∀ n, flashcard_note db f = some n → submit_language db f = n.language) ∧
    (flashcard_note db f = none → submit_language db f = some "en") := by
  refine ⟨?_, ?_, ?_⟩
  · unfold submit_answer
    rw [hf, hqz]
  · intro n hn
    unfold submit_language
    rw [hn]
  · intro hn
    unfold submit_language
    rw [hn]

/-- Claim C7, witness for the amended theorem. -/
theorem c7_witness :
    (submit_answer c7db gProbe 1 1 1 "x").2
      = .ok (gProbe c7fc.question c7fc.answer "x" (submit_language c7db c7fc)) :=
  (c7_language_from_note c7db gProbe 1 1 1 "x" c7fc ⟨1, "", none, false, 1, 1⟩
    (by decide) (by decide)).1

/-! ## Claim C8 -/

/-- Claim C8: starting a quiz on a note that exists but belongs to another
user yields the not-found response, and the flashcard list computed for the
quiz is empty — no flashcard content of that note is ever in the payload. -/
theorem c8_foreign_note_not_found (db : DB) (user_id note_id : Nat)
    (hnd : (db.notes.map (fun n => n.note_id)).Nodup)
    (n : NoteRow) (hn : n ∈ db.notes) (hnid : n.note_id = note_id)
    (hown : n.user_id ≠ user_id) :
    get_flashcards_for_quiz db user_id note_id = [] ∧
    start_quiz db user_id note_id = .notFound := by
  have hempty : get_flashcards_for_quiz db user_id note_id = [] := by
    unfold get_flashcards_for_quiz
    rw [List.flatMap_eq_nil_iff]
    intro f _
    have hfil : (db.notes.filter (fun m =>
        some m.note_id == f.note_id && f.note_id == some note_id && m.user_id == user_id)) = [] := by
      rw [List.filter_eq_nil_iff]
      intro m hm hpred
      simp only [Bool.and_eq_true, beq_iff_eq] at hpred
      obtain ⟨⟨h1, h2⟩, h3⟩ := hpred
      have hmn : m.note_id = note_id := by
        rw [h2] at h1
        exact Option.some.inj h1
      have hmeq : m = n := List.inj_on_of_nodup_map hnd hm hn (by rw [hmn, hnid])
      exact hown (hmeq ▸ h3)
    rw [hfil]
    rfl
  refine ⟨hempty, ?_⟩
  unfold start_quiz
  rw [hempty]
  rfl

/-- Claim C8, witness: note 1 belongs to user 2; user 1 gets not-found. -/
theorem c8_witness :
    get_flashcards_for_quiz c8db 1 1 = [] ∧ start_quiz c8db 1 1 = .notFound :=
  c8_foreign_note_not_found c8db 1 1 (by decide) c8note (by decide) rfl (by decide)

/-! ## Claim C9 -/

/-- Claim C9: `get_progress` is a total function — the progress route always
answers with the service's dict and its `progress is None` 404 branch is
unreachable — and for a note id that does not exist (under foreign-key
integrity) it reports zero totals and zero percent. -/
theorem c9_progress_total (db : DB) (user_id note_id : Nat) :
    get_progress_route db user_id note_id = .ok (get_progress db user_id note_id) ∧
    (ReferentialIntegrity db → (∀ n ∈ db.notes, n.note_id ≠ note_id) →
      get_progress db user_id note_id = ⟨0, 0, 0⟩) := by
  refine ⟨rfl, fun hri hun => ?_⟩
  have hcards : ∀ f ∈ db.flashcards, (f.note_id == some note_id) = false := by
    intro f hf
    rcases hri f hf with h | ⟨n, hn, hsome⟩
    · simp [h]
    · have hne : n.note_id ≠ note_id := hun n hn
      rw [← hsome]
      simp [hne]
  have htotal : (db.flashcards.filter (fun f => f.note_id == some note_id)) = [] := by
    rw [List.filter_eq_nil_iff]
    intro f hf hp
    rw [hcards f hf] at hp
    exact Bool.noConfusion hp
  have hans : ((db.quizzes.filter (fun q => q.user_id == user_id && q.answered)).map
      (fun q => (db.flashcards.filter (fun f =>
          f.card_id == q.card_id && f.note_id == some note_id)).length)).sum = 0 := by
    apply List.sum_eq_zero
    intro x hx
    rcases List.mem_map.mp hx with ⟨q, _, rfl⟩
    have hfil : (db.flashcards.filter (fun f =>
        f.card_id == q.card_id && f.note_id == some note_id)) = [] := by
      rw [List.filter_eq_nil_iff]
      intro f hf hp
      simp only [Bool.and_eq_true] at hp
      rw [hcards f hf] at hp
      exact Bool.noConfusion hp.2
    rw [hfil]
    rfl
  show Progress.mk _ _ _ = Progress.mk 0 0 0
  rw [htotal, hans]
  norm_num

/-- Claim C9, witness: querying note id 5, which no note carries. -/
theorem c9_witness : get_progress c9db 1 5 = ⟨0, 0, 0⟩ :=
  (c9_progress_total c9db 1 5).2 (by decide) (by decide)

/-! ## Claim C10 -/

/-- Claim C10: when the generator produces no cards, `generate_flashcards`
returns with the database state — in particular the note's stored
flashcards — exactly unchanged. -/
theorem c10_empty_generation (db : DB) (note_id user_id : Nat)
    (gen : String → Option String → List CardData) (note : NoteRow)
    (hn : db.notes.find? (fun n => n.note_id == note_id && n.user_id == user_id) = some note)
    (hs : truthy note.ai_summary = true)
    (hg : gen (note.ai_summary.getD "") note.language = []) :
    generate_flashcards db note_id user_id gen = .ok db := by
  unfold generate_flashcards
  rw [hn]
  simp [hs, hg]

/-- Claim C10, witness: note 1 has a summary, the generator returns nothing,
and the state (with its one stored flashcard) is returned unchanged. -/
theorem c10_witness : generate_flashcards c10db 1 1 genNil = .ok c10db :=
  c10_empty_generation c10db 1 1 genNil c10note (by decide) (by decide) rfl

end Notivora
